import Mathlib

/-!
Verification development for the `autodoc` package
(`src/autodoc/autodoc.go`).  The package's entry point `Document`
parses command-line arguments, loads a template set, spawns one
goroutine per output document (one mkdocs.yml config task, one
index task, one task per resource, one per data source), and drains
one completion per goroutine from a shared error channel, collecting
the non-nil errors into the returned list.

The embedding below mirrors `Document` (autodoc.go lines 79-200).
Go maps (`ResourcesMap`, `DataSourcesMap`) are embedded as association
lists; the schema payload is never inspected by `Document`, only passed
through to the workers, so it is embedded as an uninterpreted association
list as well.  `parseArgs` and `parseTemplates` live outside the given
source tree, so `Document` is embedded as a function of their results.
-/

namespace Autodoc

/-- Errors are uninterpreted; only nil/non-nil and identity matter to
`Document`. -/
abbrev Err := String

/-- Uninterpreted schema payload (`map[string]*schema.Schema` in Go).
`Document` never inspects it; it is handed to the worker unchanged. -/
abbrev SchemaInfo := List (String × String)

/-- Embedding of `schema.Resource`: only its `Schema` field is read by
`Document` (autodoc.go lines 165, 187). -/
structure Resource where
  Schema : SchemaInfo
deriving Repr, DecidableEq

/-- Embedding of `schema.Provider` as consumed by `Document`: its own
`Schema` (line 144) and the two name-keyed maps (lines 149, 171),
embedded as association lists. -/
structure Provider where
  Schema : SchemaInfo
  ResourcesMap : List (String × Resource)
  DataSourcesMap : List (String × Resource)
deriving Repr, DecidableEq

/-- Parsed command-line arguments.  The fields `help`, `providerName`,
`docsDir` and `templateFileExt` are read by `Document` in autodoc.go;
`rootDir` and `templatesDir` are the remaining options documented in the
package comment (autodoc.go lines 9-23). -/
structure Arguments where
  providerName : String
  rootDir : String
  docsDir : String
  templatesDir : String
  templateFileExt : String
  help : Bool
deriving Repr, DecidableEq

/-- The defaults documented in the package comment (autodoc.go lines
6-23): provider name "Terraform Provider", root = current directory,
docs dir "docs", templates dir "templates", extension ".template". -/
def defaultArguments : Arguments :=
  { providerName := "Terraform Provider"
    rootDir := "."
    docsDir := "docs"
    templatesDir := "templates"
    templateFileExt := ".template"
    help := false }

/-- The loaded template set.  `Document` only threads the handle through
to the workers; its contents are irrelevant to the dispatcher logic. -/
structure TemplateSet where
  names : List String
deriving Repr, DecidableEq

/-- Modelled from the spec: the constant `mkdocsYmlTemplate` is declared
outside the given source tree; spec section 6 and the package comment
(autodoc.go line 50) give the binding name `mkdocs.yml`. -/
def mkdocsYmlTemplate : String := "mkdocs.yml"

/-- Modelled from the spec: the constant `providerMdTemplate` is declared
outside the given source tree; spec section 6 and the package comment
(autodoc.go line 52) give the binding name `index.md`. -/
def providerMdTemplate : String := "index.md"

/-- Modelled from the spec: the constant `resourceMdTemplate` is declared
outside the given source tree; spec section 6 and the package comment
(autodoc.go line 54) give the binding name `resource.md`. -/
def resourceMdTemplate : String := "resource.md"

/-- Modelled from the spec: the constant `dataSourceMdTemplate` is
declared outside the given source tree; spec section 6 and the package
comment (autodoc.go line 56) give the binding name `datasource.md`. -/
def dataSourceMdTemplate : String := "datasource.md"

/-- Model of Go's `filepath.Join` restricted to the inputs this program
builds: empty components are dropped and the remaining components are
joined with "/".  Path cleaning of "." and ".." segments is not
modelled; every component the program joins is either a literal
("mkdocs.yml", "index.md", "resources", "data-sources"), a configured
directory name, or an entity name suffixed with ".md". -/
def filepathJoin : List String → String
  | [] => ""
  | e :: rest =>
    let r := filepathJoin rest
    if e = "" then r
    else if r = "" then e
    else e ++ "/" ++ r

/-- Embedding of the `schemaType` tag of `schemaDoc` tasks. -/
inductive SchemaType where
  | typeProvider
  | typeResource
  | typeDataSource
deriving Repr, DecidableEq

/-- Embedding of `goroutineBase` (shared task fields): the output file
and the template name.  The `template` handle and `errChan` are modelled
at the run level rather than per task. -/
structure GoroutineBase where
  outFile : String
  templateName : String
deriving Repr, DecidableEq

/-- One submitted unit of work: either an `mkdocsYmlDoc` (config task,
autodoc.go lines 114-127) or a `schemaDoc` (index, resource or
data-source task, lines 131-190). -/
inductive DocumentTask where
  | mkdocsYml (base : GoroutineBase) (provider : Provider) (args : Arguments)
  | schemaTask (base : GoroutineBase) (schemaType : SchemaType)
      (name : String) (schema : SchemaInfo)
deriving Repr, DecidableEq

/-- The shared `goroutineBase` of a task. -/
def DocumentTask.base : DocumentTask → GoroutineBase
  | .mkdocsYml b _ _ => b
  | .schemaTask b _ _ _ => b

/-- The relative output file of a task. -/
def DocumentTask.outFile (t : DocumentTask) : String := t.base.outFile

/-- The template name bound to a task. -/
def DocumentTask.templateName (t : DocumentTask) : String :=
  t.base.templateName

/-- The role of a task: `none` for the config task, otherwise the
`schemaType` tag. -/
def DocumentTask.role : DocumentTask → Option SchemaType
  | .mkdocsYml _ _ _ => none
  | .schemaTask _ st _ _ => some st

/-- The list of tasks `Document` submits once it is past argument
parsing, the help flag and template loading: the config task
(autodoc.go lines 113-127), the index task (lines 130-146), one task
per `ResourcesMap` entry (lines 149-168) and one task per
`DataSourcesMap` entry (lines 171-190), each built exactly as in the
source: output file via `filepath.Join`, template name via the binding
constant suffixed with the configured extension. -/
def documentTasks (provider : Provider) (args : Arguments) :
    List DocumentTask :=
  [DocumentTask.mkdocsYml
      { outFile := filepathJoin ["mkdocs.yml"]
        templateName := mkdocsYmlTemplate ++ args.templateFileExt }
      provider args,
   DocumentTask.schemaTask
      { outFile := filepathJoin [args.docsDir, "index.md"]
        templateName := providerMdTemplate ++ args.templateFileExt }
      SchemaType.typeProvider args.providerName provider.Schema]
  ++ provider.ResourcesMap.map (fun nr =>
      DocumentTask.schemaTask
        { outFile := filepathJoin [args.docsDir, "resources", nr.1 ++ ".md"]
          templateName := resourceMdTemplate ++ args.templateFileExt }
        SchemaType.typeResource nr.1 nr.2.Schema)
  ++ provider.DataSourcesMap.map (fun nr =>
      DocumentTask.schemaTask
        { outFile := filepathJoin [args.docsDir, "data-sources", nr.1 ++ ".md"]
          templateName := dataSourceMdTemplate ++ args.templateFileExt }
        SchemaType.typeDataSource nr.1 nr.2.Schema)

/-- Embedding of the drain loop (autodoc.go lines 193-198):
`for i := 0; i < totalGoroutines; i++ { err := <-errChan; if err != nil
{ errors = append(errors, err) } }`.  The first argument is the number
of receives still to perform, the second the stream of completions in
arrival order, the third the error list built so far.  `none` as a
result means the loop blocks forever: a receive was attempted but no
completion ever arrives. -/
def drainLoop : Nat → List (Option Err) → List Err →
    Option (List Err × List (Option Err))
  | 0, stream, errs => some (errs, stream)
  | _ + 1, [], _ => none
  | n + 1, c :: stream, errs =>
    drainLoop n stream
      (match c with
       | none => errs
       | some e => errs ++ [e])

/-- The observable outcome of a `Document` call: whether `Usage()` was
invoked, which tasks were launched as goroutines, and the returned
error list. -/
structure RunOutcome where
  usagePrinted : Bool
  tasksSubmitted : List DocumentTask
  errors : List Err
deriving Repr, DecidableEq

/-- Embedding of `Document` (autodoc.go lines 79-200).  `parseArgs` and
`parseTemplates` live outside the given source tree, so they enter as
the already-computed parse result and a template-loading function; the
completions arriving on the error channel enter as the arrival-ordered
stream `arrivals`.  The control flow mirrors the source exactly:
a parse error is returned as the sole error (lines 84-87); the help
flag prints usage and returns the empty list (lines 89-92); a template
error is returned as the sole error (lines 97-100); otherwise all tasks
are submitted and exactly `totalGoroutines` completions are drained
(lines 110-198).  `none` means the run never terminates (the drain
loop blocked on a completion that never arrived). -/
def Document (parseResult : Except Err Arguments)
    (parseTemplates : Arguments → Except Err TemplateSet)
    (provider : Provider) (arrivals : List (Option Err)) :
    Option RunOutcome :=
  match parseResult with
  | .error e => some { usagePrinted := false, tasksSubmitted := [], errors := [e] }
  | .ok args =>
    if args.help then
      some { usagePrinted := true, tasksSubmitted := [], errors := [] }
    else
      match parseTemplates args with
      | .error e =>
        some { usagePrinted := false, tasksSubmitted := [], errors := [e] }
      | .ok _ =>
        let tasks := documentTasks provider args
        match drainLoop tasks.length arrivals [] with
        | none => none
        | some (errs, _) =>
          some { usagePrinted := false, tasksSubmitted := tasks, errors := errs }

/-- Modelled from the spec: the worker bodies `generateMkdocsYml` and
`generateSchemaDoc` are outside the given source tree.  Spec sections
4.1 and 6: each worker writes its single output file at the task's
output path resolved under the configured root directory. -/
def workerOutputPath (args : Arguments) (t : DocumentTask) : String :=
  filepathJoin [args.rootDir, t.outFile]

/-- Modelled from the spec: the worker bodies are outside the given
source tree.  Spec sections 4.3 and 7: a worker writes its output file
exactly when its task succeeds (its completion carries a nil error),
and per-task failures do not affect sibling tasks. -/
def filesWritten (args : Arguments) (tasks : List DocumentTask)
    (outcome : DocumentTask → Option Err) : List String :=
  (tasks.filter (fun t => outcome t = none)).map (workerOutputPath args)

/-- The spec's name for the template binding of each task role
(spec section 6), stated from the spec's words so it can be compared
with the template names the source assigns. -/
def specBindingName : Option SchemaType → String
  | none => "mkdocs.yml"
  | some SchemaType.typeProvider => "index.md"
  | some SchemaType.typeResource => "resource.md"
  | some SchemaType.typeDataSource => "datasource.md"

/-- The spec's description of each task's final output path
(spec section 6), stated from the spec's words so it can be compared
with the paths the source builds. -/
def specOutputPath (args : Arguments) : DocumentTask → String
  | .mkdocsYml _ _ _ => filepathJoin [args.rootDir, "mkdocs.yml"]
  | .schemaTask _ SchemaType.typeProvider _ _ =>
      filepathJoin [args.rootDir, args.docsDir, "index.md"]
  | .schemaTask _ SchemaType.typeResource name _ =>
      filepathJoin [args.rootDir, args.docsDir, "resources", name ++ ".md"]
  | .schemaTask _ SchemaType.typeDataSource name _ =>
      filepathJoin [args.rootDir, args.docsDir, "data-sources", name ++ ".md"]

/-- Capacity of the completion channel:
`errChan := make(chan error, 1)` (autodoc.go line 106). -/
def errChanCapacity : Nat := 1

/-- Abstract state of one run's channel protocol: how many goroutines
the dispatcher has launched, how many workers have finished rendering
and stand ready to send, how many sends have completed, and how many
completions the dispatcher has received. -/
structure ChanState where
  submitted : Nat
  finished : Nat
  sent : Nat
  received : Nat
deriving Repr, DecidableEq

/-- Interleaving semantics of one run with `N` tasks.  The dispatcher
may launch a goroutine while fewer than `N` are launched; a launched
worker may finish its rendering; a finished worker may complete its
send only while the channel buffer (completed sends not yet received)
is below `errChanCapacity`; the dispatcher may receive only after all
`N` tasks are submitted, because the drain loop (autodoc.go lines
193-198) follows every `go` statement in the dispatcher's single
control flow. -/
inductive Step (N : Nat) : ChanState → ChanState → Prop where
  | submit (s : ChanState) : s.submitted < N →
      Step N s { s with submitted := s.submitted + 1 }
  | finishWork (s : ChanState) : s.finished < s.submitted →
      Step N s { s with finished := s.finished + 1 }
  | send (s : ChanState) : s.sent < s.finished →
      s.sent - s.received < errChanCapacity →
      Step N s { s with sent := s.sent + 1 }
  | receive (s : ChanState) : s.submitted = N → s.received < s.sent →
      Step N s { s with received := s.received + 1 }

/-- Reachability from the initial state (nothing submitted, finished,
sent or received) under the interleaving semantics. -/
inductive Reaches (N : Nat) : ChanState → Prop where
  | init : Reaches N ⟨0, 0, 0, 0⟩
  | step {s s' : ChanState} : Reaches N s → Step N s s' → Reaches N s'

/-- A worker is blocked on its send: it has finished its work, its send
has not completed, and the channel buffer is full. -/
def WorkerBlocked (s : ChanState) : Prop :=
  s.sent < s.finished ∧ errChanCapacity ≤ s.sent - s.received

/-- A provider with no resources and no data sources, giving the
smallest run: exactly two tasks (config and index). -/
def emptyProvider : Provider :=
  { Schema := [], ResourcesMap := [], DataSourcesMap := [] }

/-- A sample provider with one resource and one data source, used to
instantiate hypotheses at concrete inputs. -/
def sampleProvider : Provider :=
  { Schema := [("timeout", "int")]
    ResourcesMap := [("acme_widget", { Schema := [("size", "int")] })]
    DataSourcesMap := [("acme_lookup", { Schema := [("id", "string")] })] }

/-- Unfolding of the drain loop: as long as at least `n` completions
are available, draining `n` of them consumes exactly the first `n`,
appends their non-nil payloads in arrival order, and leaves the rest
of the stream untouched. -/
theorem drainLoop_eq (n : Nat) (stream : List (Option Err)) (acc : List Err)
    (h : n ≤ stream.length) :
    drainLoop n stream acc =
      some (acc ++ (stream.take n).filterMap id, stream.drop n) := by
  induction n generalizing stream acc with
  | zero => simp [drainLoop]
  | succ n ih =>
    cases stream with
    | nil => simp at h
    | cons c rest =>
      cases c with
      | none =>
        simpa [drainLoop] using ih rest acc (by simpa using h)
      | some e =>
        have hrec := ih rest (acc ++ [e]) (by simpa using h)
        simp only [drainLoop, hrec, List.take_succ_cons, List.drop_succ_cons,
          List.filterMap_cons, id]
        simp

/-- Flattening of the path-join model: joining a component onto an
already-joined tail equals joining the whole component list at once. -/
theorem filepathJoin_pair (a : String) (l : List String) :
    filepathJoin [a, filepathJoin l] = filepathJoin (a :: l) := by
  by_cases ha : a = "" <;> by_cases hl : filepathJoin l = "" <;>
    simp [filepathJoin, ha, hl]

/-- The dispatcher never launches more goroutines than there are
tasks. -/
theorem reaches_submitted_le {N : Nat} {s : ChanState}
    (h : Reaches N s) : s.submitted ≤ N := by
  induction h with
  | init => exact Nat.zero_le N
  | step _ hstep ih =>
    cases hstep with
    | submit hlt => exact hlt
    | finishWork _ => exact ih
    | send _ _ => exact ih
    | receive _ _ => exact ih

/-- In every reachable state, if any completion has been received then
all tasks had already been submitted: receiving starts only after the
last submission. -/
theorem reaches_received_submitted {N : Nat} {s : ChanState}
    (h : Reaches N s) : 0 < s.received → s.submitted = N := by
  induction h with
  | init => intro h0; exact absurd h0 (by simp)
  | step _ hstep ih =>
    cases hstep with
    | submit hlt =>
      intro h0
      exact absurd (ih h0) (Nat.ne_of_lt hlt)
    | finishWork _ => exact ih
    | send _ _ => exact ih
    | receive heq _ => intro _; exact heq

/-- A reachable configuration of the two-task run in which one worker's
completion sits undelivered in the (capacity-one) channel buffer and
the other worker has finished but not yet sent. -/
theorem reaches_blocked_two : Reaches 2 ⟨2, 2, 1, 0⟩ := by
  have h1 : Reaches 2 ⟨1, 0, 0, 0⟩ :=
    Reaches.step Reaches.init (Step.submit ⟨0, 0, 0, 0⟩ (by decide))
  have h2 : Reaches 2 ⟨2, 0, 0, 0⟩ :=
    Reaches.step h1 (Step.submit ⟨1, 0, 0, 0⟩ (by decide))
  have h3 : Reaches 2 ⟨2, 1, 0, 0⟩ :=
    Reaches.step h2 (Step.finishWork ⟨2, 0, 0, 0⟩ (by decide))
  have h4 : Reaches 2 ⟨2, 2, 0, 0⟩ :=
    Reaches.step h3 (Step.finishWork ⟨2, 1, 0, 0⟩ (by decide))
  exact Reaches.step h4 (Step.send ⟨2, 2, 0, 0⟩ (by decide) (by decide))

/-- A reachable configuration of the two-task run in which the
dispatcher has already received one completion. -/
theorem reaches_drained_two : Reaches 2 ⟨2, 2, 1, 1⟩ :=
  Reaches.step reaches_blocked_two (Step.receive ⟨2, 2, 1, 0⟩ rfl (by decide))

/-- Reduction of `Document` on the path that reaches task submission:
parsing succeeded, help is unset, templates loaded, and one completion
arrived per task.  The run returns with every task submitted and the
error list equal to the non-nil completions in arrival order. -/
theorem Document_ok_eq (args : Arguments)
    (parseTemplates : Arguments → Except Err TemplateSet)
    (ts : TemplateSet) (provider : Provider) (arrivals : List (Option Err))
    (hhelp : args.help = false)
    (htmpl : parseTemplates args = Except.ok ts)
    (hlen : arrivals.length = (documentTasks provider args).length) :
    Document (Except.ok args) parseTemplates provider arrivals =
      some { usagePrinted := false
             tasksSubmitted := documentTasks provider args
             errors := arrivals.filterMap id } := by
  have hds : drainLoop (documentTasks provider args).length arrivals [] =
      some (arrivals.filterMap id, []) := by
    have h := drainLoop_eq (documentTasks provider args).length arrivals []
      (Nat.le_of_eq hlen.symm)
    rw [← hlen, List.take_length, List.drop_length] at h
    rw [← hlen]
    simpa using h
  simp [Document, hhelp, htmpl, hds]

/-- C1: a run of Document that gets past argument parsing, the help
flag and template loading submits exactly 1 + 1 + R + D concurrent
tasks — one config task, one index task, one per resource, one per
data source — and a fully successful run (every task's completion is
nil) writes exactly 2 + R + D output files. -/
theorem autodoc_C1 (args : Arguments)
    (parseTemplates : Arguments → Except Err TemplateSet)
    (ts : TemplateSet) (provider : Provider) (arrivals : List (Option Err))
    (hhelp : args.help = false)
    (htmpl : parseTemplates args = Except.ok ts)
    (hlen : arrivals.length = (documentTasks provider args).length) :
    (Document (Except.ok args) parseTemplates provider arrivals).map
        (fun o => o.tasksSubmitted.length) =
      some (1 + 1 + provider.ResourcesMap.length +
        provider.DataSourcesMap.length) ∧
    (Document (Except.ok args) parseTemplates provider arrivals).map
        (fun o => o.tasksSubmitted.map DocumentTask.role) =
      some ([none, some SchemaType.typeProvider]
        ++ List.replicate provider.ResourcesMap.length
            (some SchemaType.typeResource)
        ++ List.replicate provider.DataSourcesMap.length
            (some SchemaType.typeDataSource)) ∧
    (Document (Except.ok args) parseTemplates provider arrivals).map
        (fun o =>
          (filesWritten args o.tasksSubmitted (fun _ => none)).length) =
      some (2 + provider.ResourcesMap.length +
        provider.DataSourcesMap.length) := by
  rw [Document_ok_eq args parseTemplates ts provider arrivals hhelp htmpl hlen]
  refine ⟨?_, ?_, ?_⟩
  · simp only [Option.map_some', Option.some.injEq, documentTasks,
      List.length_append, List.length_cons, List.length_nil, List.length_map]
  · simp [documentTasks, DocumentTask.role, List.map_map, Function.comp_def]
  · simp only [Option.map_some', Option.some.injEq, filesWritten,
      documentTasks]
    simp
    omega

/-- Witness for C1: the sample provider with one resource and one data
source, default arguments, an empty template set, all four completions
nil. -/
theorem autodoc_C1_witness :
    (Document (Except.ok defaultArguments)
        (fun _ => Except.ok { names := [] }) sampleProvider
        [none, none, none, none]).map
        (fun o => o.tasksSubmitted.length) =
      some (1 + 1 + sampleProvider.ResourcesMap.length +
        sampleProvider.DataSourcesMap.length) ∧
    (Document (Except.ok defaultArguments)
        (fun _ => Except.ok { names := [] }) sampleProvider
        [none, none, none, none]).map
        (fun o => o.tasksSubmitted.map DocumentTask.role) =
      some ([none, some SchemaType.typeProvider]
        ++ List.replicate sampleProvider.ResourcesMap.length
            (some SchemaType.typeResource)
        ++ List.replicate sampleProvider.DataSourcesMap.length
            (some SchemaType.typeDataSource)) ∧
    (Document (Except.ok defaultArguments)
        (fun _ => Except.ok { names := [] }) sampleProvider
        [none, none, none, none]).map
        (fun o =>
          (filesWritten defaultArguments o.tasksSubmitted
            (fun _ => none)).length) =
      some (2 + sampleProvider.ResourcesMap.length +
        sampleProvider.DataSourcesMap.length) :=
  autodoc_C1 defaultArguments (fun _ => Except.ok { names := [] })
    { names := [] } sampleProvider [none, none, none, none] rfl rfl rfl

/-- C2 (amended): the completion channel is buffered with capacity 1
(autodoc.go line 106), so a finished worker can block on its send while
another completion sits undelivered in the buffer; however, whenever a
worker is blocked in a reachable state, the dispatcher still has a step
available (another submission, or a receive of the buffered
completion), so the run never deadlocks and every send eventually
completes. -/
theorem autodoc_C2 (N : Nat) (s : ChanState) (hs : Reaches N s)
    (hb : WorkerBlocked s) :
    errChanCapacity = 1 ∧
    (s.submitted < N ∨ (s.submitted = N ∧ s.received < s.sent)) := by
  refine ⟨rfl, ?_⟩
  have hle := reaches_submitted_le hs
  have h2 : 1 ≤ s.sent - s.received := hb.2
  have hrs : s.received < s.sent := by omega
  rcases Nat.lt_or_ge s.submitted N with h | h
  · exact Or.inl h
  · exact Or.inr ⟨Nat.le_antisymm hle h, hrs⟩

/-- Counterexample for C2 as stated: the channel capacity is 1, the
smallest provider already yields a run of 2 tasks, and the
configuration in which both workers have finished, one send sits
undelivered in the buffer and no receive has happened is reachable —
in it the second worker is blocked on its send. -/
theorem autodoc_C2_counterexample :
    errChanCapacity = 1 ∧
    (documentTasks emptyProvider defaultArguments).length = 2 ∧
    Reaches 2 ⟨2, 2, 1, 0⟩ ∧ WorkerBlocked ⟨2, 2, 1, 0⟩ :=
  ⟨rfl, rfl, reaches_blocked_two, ⟨by decide, by decide⟩⟩

/-- Witness for the amended C2 at the reachable blocked configuration
of the two-task run. -/
theorem autodoc_C2_witness :
    errChanCapacity = 1 ∧
    ((ChanState.mk 2 2 1 0).submitted < 2 ∨
     ((ChanState.mk 2 2 1 0).submitted = 2 ∧
      (ChanState.mk 2 2 1 0).received < (ChanState.mk 2 2 1 0).sent)) :=
  autodoc_C2 2 ⟨2, 2, 1, 0⟩ reaches_blocked_two ⟨by decide, by decide⟩

/-- C3: when argument parsing fails, or when template loading fails
(help unset), Document short-circuits before any task is submitted —
the submitted task list is empty, so no goroutine is launched and no
file is written — and returns the fatal error as the sole element of
the result list. -/
theorem autodoc_C3 (e : Err)
    (parseTemplates : Arguments → Except Err TemplateSet)
    (provider : Provider) (arrivals : List (Option Err)) (args : Arguments)
    (hhelp : args.help = false)
    (htmpl : parseTemplates args = Except.error e) :
    Document (Except.error e) parseTemplates provider arrivals =
      some { usagePrinted := false, tasksSubmitted := [], errors := [e] } ∧
    Document (Except.ok args) parseTemplates provider arrivals =
      some { usagePrinted := false, tasksSubmitted := [], errors := [e] } ∧
    (∀ (a : Arguments) (f : DocumentTask → Option Err),
      filesWritten a [] f = []) := by
  refine ⟨rfl, ?_, fun a f => rfl⟩
  simp [Document, hhelp, htmpl]

/-- Witness for C3 at a concrete failing template load. -/
theorem autodoc_C3_witness :
    Document (Except.error "bad flag")
        (fun _ => Except.error "bad flag") emptyProvider [] =
      some { usagePrinted := false, tasksSubmitted := [],
             errors := ["bad flag"] } ∧
    Document (Except.ok defaultArguments)
        (fun _ => Except.error "bad flag") emptyProvider [] =
      some { usagePrinted := false, tasksSubmitted := [],
             errors := ["bad flag"] } ∧
    (∀ (a : Arguments) (f : DocumentTask → Option Err),
      filesWritten a [] f = []) :=
  autodoc_C3 "bad flag" (fun _ => Except.error "bad flag") emptyProvider []
    defaultArguments rfl rfl

/-- C4: for a run that submits N tasks, the aggregator drains exactly
the N arrivals (nothing is left unconsumed and the loop terminates),
appends precisely the non-nil errors in arrival order, never stops at
the first error, and the returned list is empty exactly when every
completion was nil. -/
theorem autodoc_C4 (N : Nat) (arrivals : List (Option Err))
    (hlen : arrivals.length = N) :
    drainLoop N arrivals [] = some (arrivals.filterMap id, []) ∧
    (arrivals.filterMap id = [] ↔ ∀ c ∈ arrivals, c = none) := by
  constructor
  · have h := drainLoop_eq N arrivals [] (Nat.le_of_eq hlen.symm)
    rw [← hlen, List.take_length, List.drop_length] at h
    rw [← hlen]
    simpa using h
  · simp [List.filterMap_eq_nil_iff]

/-- Witness for C4 on a three-arrival stream with two failures. -/
theorem autodoc_C4_witness :
    drainLoop 3 [some "a", none, some "b"] [] =
      some (([some "a", none, some "b"] : List (Option Err)).filterMap id,
        []) ∧
    (([some "a", none, some "b"] : List (Option Err)).filterMap id = [] ↔
      ∀ c ∈ ([some "a", none, some "b"] : List (Option Err)), c = none) :=
  autodoc_C4 3 [some "a", none, some "b"] rfl

/-- C5: the dispatcher submits all tasks before draining — in every
reachable state of the interleaving semantics, a positive receive count
implies all N tasks were already submitted — and the drain consumes
exactly N completions before the error list is final. -/
theorem autodoc_C5 (N : Nat) (s : ChanState) (stream : List (Option Err))
    (hs : Reaches N s) (hlen : N ≤ stream.length) :
    (0 < s.received → s.submitted = N) ∧
    drainLoop N stream [] =
      some ((stream.take N).filterMap id, stream.drop N) :=
  ⟨reaches_received_submitted hs,
   by simpa using drainLoop_eq N stream [] hlen⟩

/-- Witness for C5 at a reachable state of the two-task run with one
completion received, on a two-completion stream. -/
theorem autodoc_C5_witness :
    (0 < (ChanState.mk 2 2 1 1).received →
      (ChanState.mk 2 2 1 1).submitted = 2) ∧
    drainLoop 2 [some "a", none] [] =
      some ((([some "a", none] : List (Option Err)).take 2).filterMap id,
        ([some "a", none] : List (Option Err)).drop 2) :=
  autodoc_C5 2 ⟨2, 2, 1, 1⟩ [some "a", none] reaches_drained_two
    (by decide)

/-- C6: the final output paths of the submitted tasks are
rootDir/mkdocs.yml for the config task, rootDir/docsDir/index.md for
the index task, rootDir/docsDir/resources/name.md for each resource,
and rootDir/docsDir/data-sources/name.md for each data source; and
they agree with the spec's per-role output-path description. -/
theorem autodoc_C6 (provider : Provider) (args : Arguments) :
    (documentTasks provider args).map (workerOutputPath args) =
      [filepathJoin [args.rootDir, "mkdocs.yml"],
       filepathJoin [args.rootDir, args.docsDir, "index.md"]]
      ++ provider.ResourcesMap.map (fun nr =>
          filepathJoin
            [args.rootDir, args.docsDir, "resources", nr.1 ++ ".md"])
      ++ provider.DataSourcesMap.map (fun nr =>
          filepathJoin
            [args.rootDir, args.docsDir, "data-sources", nr.1 ++ ".md"]) ∧
    (documentTasks provider args).map (workerOutputPath args) =
      (documentTasks provider args).map (specOutputPath args) := by
  constructor <;>
    simp [documentTasks, workerOutputPath, specOutputPath,
      DocumentTask.outFile, DocumentTask.base, List.map_map,
      Function.comp_def, filepathJoin_pair]

/-- C7: when parsing succeeds and the help flag is set, only usage is
printed — no template loading is consulted and no task is submitted
(the result does not depend on the template loader or on any
completions) — and the returned error list is empty. -/
theorem autodoc_C7 (args : Arguments)
    (parseTemplates : Arguments → Except Err TemplateSet)
    (provider : Provider) (arrivals : List (Option Err))
    (hhelp : args.help = true) :
    Document (Except.ok args) parseTemplates provider arrivals =
      some { usagePrinted := true, tasksSubmitted := [], errors := [] } := by
  simp [Document, hhelp]

/-- Witness for C7: help requested while the template loader would
fail, showing the loader is never consulted. -/
theorem autodoc_C7_witness :
    Document (Except.ok { defaultArguments with help := true })
        (fun _ => Except.error "templates dir missing") emptyProvider [] =
      some { usagePrinted := true, tasksSubmitted := [], errors := [] } :=
  autodoc_C7 { defaultArguments with help := true }
    (fun _ => Except.error "templates dir missing") emptyProvider [] rfl

/-- C8: every submitted task's template name is the spec's binding name
for its role (mkdocs.yml, index.md, resource.md, datasource.md)
suffixed with the configured template file extension. -/
theorem autodoc_C8 (provider : Provider) (args : Arguments) :
    (documentTasks provider args).map DocumentTask.templateName =
      (documentTasks provider args).map
        (fun t => specBindingName t.role ++ args.templateFileExt) := by
  simp [documentTasks, DocumentTask.templateName, DocumentTask.base,
    DocumentTask.role, specBindingName, mkdocsYmlTemplate,
    providerMdTemplate, resourceMdTemplate, dataSourceMdTemplate,
    List.map_map, Function.comp_def]

/-- C9: a run that reaches task submission returns an error list whose
length is the number of non-nil completions, which is at most one per
submitted task, i.e. at most 2 + R + D. -/
theorem autodoc_C9 (args : Arguments)
    (parseTemplates : Arguments → Except Err TemplateSet)
    (ts : TemplateSet) (provider : Provider) (arrivals : List (Option Err))
    (hhelp : args.help = false)
    (htmpl : parseTemplates args = Except.ok ts)
    (hlen : arrivals.length = (documentTasks provider args).length) :
    (Document (Except.ok args) parseTemplates provider arrivals).map
        (fun o => o.errors.length) =
      some ((arrivals.filterMap id).length) ∧
    (arrivals.filterMap id).length ≤
      2 + provider.ResourcesMap.length + provider.DataSourcesMap.length := by
  rw [Document_ok_eq args parseTemplates ts provider arrivals hhelp htmpl hlen]
  refine ⟨rfl, ?_⟩
  have h := List.length_filterMap_le id arrivals
  have h2 : (documentTasks provider args).length =
      2 + provider.ResourcesMap.length + provider.DataSourcesMap.length := by
    simp only [documentTasks, List.length_append, List.length_cons,
      List.length_nil, List.length_map]
  omega

/-- Witness for C9: the sample provider with one resource and one data
source and three failing completions out of four. -/
theorem autodoc_C9_witness :
    (Document (Except.ok defaultArguments)
        (fun _ => Except.ok { names := [] }) sampleProvider
        [some "a", some "b", none, some "c"]).map
        (fun o => o.errors.length) =
      some ((([some "a", some "b", none, some "c"] :
        List (Option Err)).filterMap id).length) ∧
    (([some "a", some "b", none, some "c"] :
        List (Option Err)).filterMap id).length ≤
      2 + sampleProvider.ResourcesMap.length +
        sampleProvider.DataSourcesMap.length :=
  autodoc_C9 defaultArguments (fun _ => Except.ok { names := [] })
    { names := [] } sampleProvider [some "a", some "b", none, some "c"]
    rfl rfl rfl

/-- C10: a parse failure takes precedence over the help flag — Document
returns the parse error as the sole result element without printing
usage, whatever flags the raw input carried, because the help flag is
only consulted after parsing succeeds. -/
theorem autodoc_C10 (e : Err)
    (parseTemplates : Arguments → Except Err TemplateSet)
    (provider : Provider) (arrivals : List (Option Err)) :
    Document (Except.error e) parseTemplates provider arrivals =
      some { usagePrinted := false, tasksSubmitted := [], errors := [e] } :=
  rfl

end Autodoc
